import Mathlib

/-!
Shallow embedding of src/InitConfigTask/relay_integration.py.

The module defines three functions: the lowering helper (called once per
program, inside a freshly spawned thread), the batch entry point
extract_from_multiple_program, and the single-program convenience wrapper
extract_from_program.  External collaborators (relay.optimize, the graph
codegen object, and the task-construction function task.create, which is
repository code not under src/) are taken as oracle parameters, so every
theorem below quantifies over them.  The TaskExtractEnv ledger lives in
src/InitConfigTask/topi_integration.py, which is not under src/ either;
its reset / enter / exit / get_tasks operations are modelled from the
spec (see the envReset, envEnter, envExit, envGetTasks definitions).

Python-level semantics that the claims hinge on are modelled explicitly:

* name resolution — the expressions `mod` (inside the driver loop) and
  `graph_runtime_codegen` (inside the lowering helper) are looked up in an
  explicit list of the names actually bound in the enclosing scopes; a
  failed lookup raises NameError, exactly as CPython does;
* keyword arguments — the wrapper calls the batch function with the
  keyword template_keys, which the batch function signature
  (funcs, params, ops, target, target_host) does not accept; CPython
  raises TypeError before the callee body runs;
* threads — threading.Thread(...).start(); join() runs the target to
  completion in its own thread and discards any exception the target
  raised: join returns normally either way;
* the with-statement — the env scope exit runs on both the normal and the
  exceptional path, while plain statements after an exception point
  (such as the logger restore) do not run.

A ghost `trace` field records the observable effects (TE-cache clears,
thread starts, lowering-body runs, fallback-cache clears) so that
temporal claims can be stated; it influences nothing.
-/

/-- A relay program (relay.expr.Function); an opaque handle. -/
structure Prog where
  id : Nat
deriving DecidableEq

/-- The parameter dictionary associated with one program; opaque. -/
structure ParamMap where
  id : Nat
deriving DecidableEq

/-- A compilation target.  `deviceName` models the optional device_name
attribute: `none` plays the role of hasattr returning false. -/
structure TargetV where
  deviceName : Option String := none
deriving DecidableEq

/-- The lowered form a successful lowering would return; opaque. -/
structure Lowered where
  id : Nat
deriving DecidableEq

/-- One recorded tunable-operator invocation, as stored by the ledger and
consumed by the materialization loop: a task name and an argument
signature. -/
structure TaskRecord where
  taskName : String
  args : List Nat
deriving DecidableEq

/-- A constructed autotvm task. -/
structure TuneTask where
  name : String
  args : List Nat
  target : TargetV
deriving DecidableEq

/-- Python exceptions that the embedded code can raise or catch.
InvalidShapeError is the one exception class the materialization loop
catches; every other constructor is some other exception. -/
inductive PyErr where
  | nameError (missing : String)
  | typeError (msg : String)
  | invalidShapeError
  | otherError (msg : String)
deriving DecidableEq

/-- Ghost trace events: the externally visible effects of the driver loop,
in the order they happen. -/
inductive Ev where
  | clearTECache
  | threadStart
  | lowerRun
  | fallbackClear
deriving DecidableEq

/-- The ambient state the module reads and mutates: the autotvm logger
(disabled flag and the warning calls made on it), the autotvm dispatch
layer (whether the current DispatchContext is a FallbackContext, its
memoized fallback state, and its accumulated warning-message cache), the
te_compiler function cache, the TaskExtractEnv ledger (records, tracing
flag, operator filter — modelled from the spec, see below), and the ghost
event trace. -/
structure PyState where
  loggerDisabled : Bool
  loggerWarnings : List String
  dispatchIsFallback : Bool
  fallbackMemory : List (String × Nat)
  fallbackWarnings : List String
  teCache : List Nat
  envRecords : List TaskRecord
  envTracing : Bool
  envFilter : Option (List String)
  trace : List Ev
deriving DecidableEq

/-- The names bound at module level in relay_integration.py: the
top-level imports and the three function definitions.  (Python builtins
contain no name `mod` or `graph_runtime_codegen` either.) -/
def moduleGlobals : List String :=
  ["threading", "logging", "tvm", "DispatchContext", "FallbackContext",
   "Target", "create", "TaskExtractEnv", "logger", "_lower",
   "extract_from_program", "extract_from_multiple_program"]

/-- CPython name resolution for a name used inside a function body:
found iff it is a local of the function or a module global. -/
def nameBound (locals : List String) (n : String) : Bool :=
  locals.contains n || moduleGlobals.contains n

/-- The local names bound in the body of the lowering helper at the point
where `graph_runtime_codegen` is referenced: its three parameters, the two
function-local imports, on the VTA branch also `vta`, and `mod` (just
bound by the destructuring assignment from relay.optimize). -/
def lowerLocalNames (vtaBranch : Bool) : List String :=
  ["func", "target", "params", "relay", "graph_executor_codegen"] ++
    (if vtaBranch then ["vta"] else []) ++ ["mod"]

/-- The lowering helper (source lines 36-55).  `optimize` stands for the
external relay.optimize (assumed to return), `codegen` for the external
codegen object a successful branch would build.  Both branches bind `mod`
from relay.optimize and then reference `graph_runtime_codegen`, a name
resolved against the scope; the module only imports
graph_executor_codegen. -/
def lowerHelper (optimize : Prog → TargetV → ParamMap → Nat)
    (codegen : Nat → TargetV → Lowered)
    (func : Prog) (target : TargetV) (params : ParamMap)
    (s : PyState) : Except PyErr Lowered × PyState :=
  let s1 := { s with trace := s.trace ++ [Ev.lowerRun] }
  if target.deviceName = some "vta" then
    let m := optimize func target params
    if nameBound (lowerLocalNames true) "graph_runtime_codegen" then
      (.ok (codegen m target), s1)
    else
      (.error (.nameError "graph_runtime_codegen"), s1)
  else
    let m := optimize func target params
    if nameBound (lowerLocalNames false) "graph_runtime_codegen" then
      (.ok (codegen m target), s1)
    else
      (.error (.nameError "graph_runtime_codegen"), s1)

/-- threading.Thread(target=f, args=...); start(); join(): the target runs
to completion in its own thread; an exception it raises is reported by the
thread machinery and discarded — join returns normally either way, so the
caller observes only the state effects, never the exception. -/
def threadStartJoin (body : PyState → Except PyErr Lowered × PyState)
    (s : PyState) : PyState :=
  let s1 := { s with trace := s.trace ++ [Ev.threadStart] }
  (body s1).2

/-- Modelled from the spec: TaskExtractEnv.reset(ops)
(src/InitConfigTask/topi_integration.py is not under src/) clears the
ledger of recorded invocations and installs the operator filter. -/
def envReset (ops : Option (List String)) (s : PyState) : PyState :=
  { s with envRecords := [], envFilter := ops }

/-- Modelled from the spec: entering the TaskExtractEnv scope (the with
statement) turns interception/tracing on. -/
def envEnter (s : PyState) : PyState :=
  { s with envTracing := true }

/-- Modelled from the spec: leaving the TaskExtractEnv scope turns
tracing off; the with statement runs this on every exit path, normal or
exceptional. -/
def envExit (s : PyState) : PyState :=
  { s with envTracing := false }

/-- Modelled from the spec: env.get_tasks() returns the recorded distinct
invocations in first-seen order. -/
def envGetTasks (s : PyState) : List TaskRecord :=
  s.envRecords

/-- The local names bound in extract_from_multiple_program at the point
where the thread-args expression `(mod, target, param)` is evaluated:
the five parameters, the two function-local imports, env, old_state, and
the loop variables func and param.  No binding is named `mod`. -/
def driverLocalNames : List String :=
  ["funcs", "params", "ops", "target", "target_host", "relay", "topi",
   "env", "old_state", "func", "param"]

/-- One iteration of the driver loop (source lines 133-142) for the pair
(func, param): clear the te_compiler function cache, evaluate the
Thread(...) arguments — which requires resolving the name `mod` — then
(were that to succeed) start and join the lowering thread, clear the
cache again, and reset the fallback-warning cache if the current dispatch
context is a FallbackContext.  Since no binding `mod` exists, evaluation
raises NameError before the thread is created; the branch below the name
check is unreachable (the only program value in scope is the loop
variable func, which is what the thread would receive were the name
bound to it). -/
def extractIter (optimize : Prog → TargetV → ParamMap → Nat)
    (codegen : Nat → TargetV → Lowered) (target : TargetV)
    (func : Prog) (param : ParamMap) (s : PyState) :
    Except PyErr Unit × PyState :=
  let s1 := { s with teCache := [], trace := s.trace ++ [Ev.clearTECache] }
  if nameBound driverLocalNames "mod" then
    let s2 := threadStartJoin (lowerHelper optimize codegen func target param) s1
    let s3 := { s2 with teCache := [], trace := s2.trace ++ [Ev.clearTECache] }
    let s4 :=
      if s3.dispatchIsFallback then
        { s3 with fallbackMemory := [], fallbackWarnings := [],
                  trace := s3.trace ++ [Ev.fallbackClear] }
      else s3
    (.ok (), s4)
  else
    (.error (.nameError "mod"), s1)

/-- The driver loop over zip(funcs, params) (Python zip truncates to the
shorter sequence, as List.zip does); an exception in one iteration
propagates and the remaining pairs are not processed. -/
def extractLoop (optimize : Prog → TargetV → ParamMap → Nat)
    (codegen : Nat → TargetV → Lowered) (target : TargetV) :
    List (Prog × ParamMap) → PyState → Except PyErr Unit × PyState
  | [], s => (.ok (), s)
  | (f, p) :: rest, s =>
    match extractIter optimize codegen target f p s with
    | (.ok _, s1) => extractLoop optimize codegen target rest s1
    | (.error e, s1) => (.error e, s1)

/-- The warning text logged when task construction rejects a shape
(source line 153). -/
def taskWarnMsg : String := "Invalid shape during AutoTVM task creation"

/-- The task-materialization loop (source lines 147-155): for each
recorded invocation in order, call the construction oracle `create`
(task.create, repository code not under src/, hence an arbitrary
parameter); append on success; on InvalidShapeError log a warning and
continue with the remaining records; on any other exception propagate it
(the partially built task list is discarded, the warnings already logged
remain).  Returns the result together with the warning calls made. -/
def materializeTasks (create : String → List Nat → TargetV → Except PyErr TuneTask)
    (target : TargetV) :
    List TaskRecord → Except PyErr (List TuneTask) × List String
  | [] => (.ok [], [])
  | r :: rs =>
    match create r.taskName r.args target with
    | .ok tsk =>
      match materializeTasks create target rs with
      | (.ok ts, ws) => (.ok (tsk :: ts), ws)
      | (.error e, ws) => (.error e, ws)
    | .error .invalidShapeError =>
      let res := materializeTasks create target rs
      (res.1, taskWarnMsg :: res.2)
    | .error e => (.error e, [])

/-- Does `create` reject this record with an exception other than
InvalidShapeError (the batch-fatal case)? -/
def fatalOf (create : String → List Nat → TargetV → Except PyErr TuneTask)
    (target : TargetV) (r : TaskRecord) : Option PyErr :=
  match create r.taskName r.args target with
  | .ok _ => none
  | .error .invalidShapeError => none
  | .error e => some e

/-- The first batch-fatal construction error among the records, in order,
if any. -/
def firstFatal (create : String → List Nat → TargetV → Except PyErr TuneTask)
    (target : TargetV) (rs : List TaskRecord) : Option PyErr :=
  rs.findSome? (fatalOf create target)

/-- The tasks that construct successfully, in record order. -/
def okTasks (create : String → List Nat → TargetV → Except PyErr TuneTask)
    (target : TargetV) (rs : List TaskRecord) : List TuneTask :=
  rs.filterMap (fun r => (create r.taskName r.args target).toOption)

/-- One warning per record rejected with InvalidShapeError, in order. -/
def shapeWarnings (create : String → List Nat → TargetV → Except PyErr TuneTask)
    (target : TargetV) (rs : List TaskRecord) : List String :=
  rs.filterMap (fun r =>
    match create r.taskName r.args target with
    | .error .invalidShapeError => some taskWarnMsg
    | _ => none)

/-- The batch entry point extract_from_multiple_program (source lines
89-155).  Target.canon_target_and_host is external and opaque; it merges
target and target_host, and the merged target is what reaches task
creation — modelled by using `target` throughout.  Steps, in source
order: env.reset(ops); enter the env scope; save the logger disabled
flag and disable the logger; run the driver loop; on normal completion
restore the logger and leave the scope, then materialize the recorded
tasks; on an exception, leave the scope (the with statement) and
propagate — the logger-restore statement, which has no try/finally
around it, does not run. -/
def extract_from_multiple_program
    (optimize : Prog → TargetV → ParamMap → Nat)
    (codegen : Nat → TargetV → Lowered)
    (create : String → List Nat → TargetV → Except PyErr TuneTask)
    (funcs : List Prog) (params : List ParamMap)
    (ops : Option (List String)) (target : TargetV)
    (target_host : Option TargetV) (s : PyState) :
    Except PyErr (List TuneTask) × PyState :=
  let s0 := envReset ops s
  let s1 := envEnter s0
  let old_state := s1.loggerDisabled
  let s2 := { s1 with loggerDisabled := true }
  match extractLoop optimize codegen target (funcs.zip params) s2 with
  | (.error e, s3) => (.error e, envExit s3)
  | (.ok _, s3) =>
    let s4 := envExit { s3 with loggerDisabled := old_state }
    let res := materializeTasks create target (envGetTasks s4)
    match res.1 with
    | .ok tasks =>
      (.ok tasks, { s4 with loggerWarnings := s4.loggerWarnings ++ res.2 })
    | .error e =>
      (.error e, { s4 with loggerWarnings := s4.loggerWarnings ++ res.2 })

/-- The parameter names of extract_from_multiple_program, from its
signature on source line 89: def extract_from_multiple_program(funcs,
params, ops, target, target_host=None,). -/
def extract_from_multiple_program_paramNames : List String :=
  ["funcs", "params", "ops", "target", "target_host"]

/-- The single-program wrapper extract_from_program (source lines 58-86).
Its body is one return statement that calls
extract_from_multiple_program([func], [params], ops, target, target_host,
template_keys=template_keys).  CPython binds keyword arguments against
the callee parameter list before entering the body; a keyword naming no
parameter raises TypeError and the callee never runs. -/
def extract_from_program
    (optimize : Prog → TargetV → ParamMap → Nat)
    (codegen : Nat → TargetV → Lowered)
    (create : String → List Nat → TargetV → Except PyErr TuneTask)
    (func : Prog) (params : ParamMap) (target : TargetV)
    (target_host : Option TargetV) (ops : Option (List String))
    (template_keys : Option Nat) (s : PyState) :
    Except PyErr (List TuneTask) × PyState :=
  if extract_from_multiple_program_paramNames.contains "template_keys" then
    extract_from_multiple_program optimize codegen create [func] [params]
      ops target target_host s
  else
    (.error (.typeError
      "extract_from_multiple_program got an unexpected keyword argument template_keys"), s)

/-- Sample oracles and inputs used by the concrete evaluations below. -/
def optimize0 : Prog → TargetV → ParamMap → Nat := fun _ _ _ => 0

def codegen0 : Nat → TargetV → Lowered := fun _ _ => ⟨0⟩

def create0 : String → List Nat → TargetV → Except PyErr TuneTask :=
  fun n as t => .ok ⟨n, as, t⟩

def prog0 : Prog := ⟨0⟩

def prog1 : Prog := ⟨1⟩

def param0 : ParamMap := ⟨0⟩

def param1 : ParamMap := ⟨1⟩

def tgt0 : TargetV := { deviceName := none }

def st0 : PyState :=
  { loggerDisabled := false, loggerWarnings := [],
    dispatchIsFallback := false, fallbackMemory := [],
    fallbackWarnings := [], teCache := [], envRecords := [],
    envTracing := false, envFilter := none, trace := [] }

/-- A state in which a FallbackContext is the current dispatch context and
its warning cache already holds a stale fallback warning and a memoized
entry — the situation the fallback-cache reset is meant to clean up. -/
def stFb : PyState :=
  { st0 with dispatchIsFallback := true,
             fallbackWarnings := ["used fallback schedule"],
             fallbackMemory := [("wkl", 1)] }

/-- A construction oracle for the materialization witness: rejects the
signature [9] with InvalidShapeError, the signature [7] with a different
(batch-fatal) exception, and constructs a task from anything else. -/
def createW : String → List Nat → TargetV → Except PyErr TuneTask :=
  fun n as t =>
    if as = [9] then .error .invalidShapeError
    else if as = [7] then .error (.otherError "boom")
    else .ok ⟨n, as, t⟩

def recA : TaskRecord := ⟨"conv2d", [1]⟩

def recB : TaskRecord := ⟨"conv2d", [9]⟩

def recC : TaskRecord := ⟨"dense", [2]⟩

def recF : TaskRecord := ⟨"dense", [7]⟩

theorem nameBound_driver_mod_false : nameBound driverLocalNames "mod" = false := by
  decide

theorem nameBound_lower_vta_false :
    nameBound (lowerLocalNames true) "graph_runtime_codegen" = false := by
  decide

theorem nameBound_lower_default_false :
    nameBound (lowerLocalNames false) "graph_runtime_codegen" = false := by
  decide

theorem extractIter_eq (optimize : Prog → TargetV → ParamMap → Nat)
    (codegen : Nat → TargetV → Lowered) (target : TargetV)
    (f : Prog) (p : ParamMap) (s : PyState) :
    extractIter optimize codegen target f p s
      = (.error (.nameError "mod"),
         { s with teCache := [], trace := s.trace ++ [Ev.clearTECache] }) := by
  simp [extractIter, nameBound_driver_mod_false]

theorem extractLoop_cons (optimize : Prog → TargetV → ParamMap → Nat)
    (codegen : Nat → TargetV → Lowered) (target : TargetV)
    (f : Prog) (p : ParamMap) (rest : List (Prog × ParamMap)) (s : PyState) :
    extractLoop optimize codegen target ((f, p) :: rest) s
      = (.error (.nameError "mod"),
         { s with teCache := [], trace := s.trace ++ [Ev.clearTECache] }) := by
  simp [extractLoop, extractIter_eq]

theorem materializeTasks_fatal_head
    (create : String → List Nat → TargetV → Except PyErr TuneTask)
    (target : TargetV) (r : TaskRecord) (rs : List TaskRecord) (e0 : PyErr)
    (hc : create r.taskName r.args target = .error e0)
    (hne : e0 ≠ PyErr.invalidShapeError) :
    materializeTasks create target (r :: rs) = (.error e0, []) := by
  cases e0 with
  | invalidShapeError => exact absurd rfl hne
  | nameError m => simp [materializeTasks, hc]
  | typeError m => simp [materializeTasks, hc]
  | otherError m => simp [materializeTasks, hc]

theorem fatalOf_fatal
    (create : String → List Nat → TargetV → Except PyErr TuneTask)
    (target : TargetV) (r : TaskRecord) (e0 : PyErr)
    (hc : create r.taskName r.args target = .error e0)
    (hne : e0 ≠ PyErr.invalidShapeError) :
    fatalOf create target r = some e0 := by
  cases e0 with
  | invalidShapeError => exact absurd rfl hne
  | nameError m => simp [fatalOf, hc]
  | typeError m => simp [fatalOf, hc]
  | otherError m => simp [fatalOf, hc]

/-- Claim C8: calling extract_from_multiple_program with an empty programs
sequence (and matching empty params) returns an empty task list and raises
no error. -/
theorem empty_batch_returns_empty_task_list
    (optimize : Prog → TargetV → ParamMap → Nat)
    (codegen : Nat → TargetV → Lowered)
    (create : String → List Nat → TargetV → Except PyErr TuneTask)
    (ops : Option (List String)) (target : TargetV)
    (target_host : Option TargetV) (s : PyState) :
    (extract_from_multiple_program optimize codegen create [] [] ops target
        target_host s).1 = .ok [] := by
  rfl

/-- Claim C10: every call to the lowering helper raises a NameError for
graph_runtime_codegen — on the VTA branch and on the default branch alike
(the universally quantified target covers both) — so it can never return a
lowered form for any input. -/
theorem lower_always_raises_graph_runtime_codegen_nameError
    (optimize : Prog → TargetV → ParamMap → Nat)
    (codegen : Nat → TargetV → Lowered)
    (func : Prog) (target : TargetV) (params : ParamMap) (s : PyState) :
    (lowerHelper optimize codegen func target params s).1
      = .error (.nameError "graph_runtime_codegen") := by
  unfold lowerHelper
  rw [nameBound_lower_vta_false, nameBound_lower_default_false]
  by_cases h : target.deviceName = some "vta" <;> simp [h]

/-- Claim C1 (code bug): a batch in which one operator-bearing program
appears twice — the N = 2 dedup scenario — never yields a task list at
all: the call raises NameError for the unbound name mod, so no Task per
distinct invocation is ever produced. -/
theorem batch_call_yields_no_task_list :
    (extract_from_multiple_program optimize0 codegen0 create0
        [prog0, prog0] [param0, param0] none tgt0 none st0).1
      = .error (.nameError "mod") := by
  rfl

/-- Claim C2 (code bug): on a one-program batch the call raises, but the
raised error is the driver's own NameError for mod, not an error from
lowering: the ghost trace of the final state shows the lowering body never
ran (and no thread was ever started), so no lowering failure can ever be
raised, propagated, or even swallowed by this code. -/
theorem lowering_never_invoked_error_not_from_lowering :
    (extract_from_multiple_program optimize0 codegen0 create0
        [prog0] [param0] none tgt0 none st0).1 = .error (.nameError "mod")
    ∧ Ev.lowerRun ∉ (extract_from_multiple_program optimize0 codegen0 create0
        [prog0] [param0] none tgt0 none st0).2.trace
    ∧ Ev.threadStart ∉ (extract_from_multiple_program optimize0 codegen0 create0
        [prog0] [param0] none tgt0 none st0).2.trace := by
  refine ⟨rfl, ?_, ?_⟩ <;> decide

/-- Claim C3 (code bug): the single-program wrapper is not the batch-of-one
case: it raises TypeError (it passes the keyword template_keys, which the
batch function signature no longer accepts), while the batch-of-one call
raises NameError for mod; their results differ. -/
theorem extract_from_program_differs_from_batch_of_one :
    (extract_from_program optimize0 codegen0 create0 prog0 param0 tgt0
        none none none st0).1
      = .error (.typeError
          "extract_from_multiple_program got an unexpected keyword argument template_keys")
    ∧ (extract_from_multiple_program optimize0 codegen0 create0 [prog0]
        [param0] none tgt0 none st0).1
      = .error (.nameError "mod")
    ∧ (extract_from_program optimize0 codegen0 create0 prog0 param0 tgt0
        none none none st0).1
      ≠ (extract_from_multiple_program optimize0 codegen0 create0 [prog0]
        [param0] none tgt0 none st0).1 := by
  refine ⟨rfl, rfl, fun h => ?_⟩
  rw [show (extract_from_program optimize0 codegen0 create0 prog0 param0 tgt0
        none none none st0).1
      = Except.error (PyErr.typeError
          "extract_from_multiple_program got an unexpected keyword argument template_keys")
      from rfl,
    show (extract_from_multiple_program optimize0 codegen0 create0 [prog0]
        [param0] none tgt0 none st0).1
      = Except.error (PyErr.nameError "mod") from rfl] at h
  exact PyErr.noConfusion (Except.error.inj h)

/-- Claim C7 (code bug): on a two-program batch the driver does not run the
claimed per-pair effect sequence (clear cache, spawn and join a lowering
thread, clear cache again): the final trace shows exactly one cache clear
and nothing else — the NameError for mod aborts the first iteration before
any thread is spawned, and the second pair is never begun. -/
theorem driver_aborts_after_single_cache_clear :
    (extract_from_multiple_program optimize0 codegen0 create0
        [prog1, prog0] [param1, param0] none tgt0 none st0).1
      = .error (.nameError "mod")
    ∧ (extract_from_multiple_program optimize0 codegen0 create0
        [prog1, prog0] [param1, param0] none tgt0 none st0).2.trace
      = [Ev.clearTECache] := by
  exact ⟨rfl, rfl⟩

/-- Claim C5 counterexample: with the logger initially enabled, a
one-program batch call exits exceptionally and leaves the logger disabled
— the prior enabled state is not restored on this exit path. -/
theorem logger_not_restored_on_exceptional_exit :
    st0.loggerDisabled = false
    ∧ (extract_from_multiple_program optimize0 codegen0 create0
        [prog0] [param0] none tgt0 none st0).2.loggerDisabled = true := by
  exact ⟨rfl, rfl⟩

/-- Claim C5 (amended): the batch call disables the logger for the
duration of the batch and restores the prior disabled state on the normal
exit path, which is exactly the empty-zip case; on the exceptional exit
path — taken by every batch with a non-empty zip of programs and params,
via the NameError for mod — the logger is left disabled, because the
restore statement has no try/finally around it. -/
theorem logger_restored_only_on_normal_exit
    (optimize : Prog → TargetV → ParamMap → Nat)
    (codegen : Nat → TargetV → Lowered)
    (create : String → List Nat → TargetV → Except PyErr TuneTask)
    (funcs : List Prog) (params : List ParamMap)
    (ops : Option (List String)) (target : TargetV)
    (target_host : Option TargetV) (s : PyState) :
    (funcs.zip params = [] →
      (extract_from_multiple_program optimize codegen create funcs params
          ops target target_host s).2.loggerDisabled = s.loggerDisabled)
    ∧ (funcs.zip params ≠ [] →
      (extract_from_multiple_program optimize codegen create funcs params
          ops target target_host s).1 = .error (.nameError "mod")
      ∧ (extract_from_multiple_program optimize codegen create funcs params
          ops target target_host s).2.loggerDisabled = true) := by
  constructor
  · intro hz
    simp [extract_from_multiple_program, hz, extractLoop, envReset, envEnter,
          envExit, envGetTasks, materializeTasks]
  · intro hz
    obtain ⟨⟨f, p⟩, rest, hz2⟩ : ∃ fp rest, funcs.zip params = fp :: rest := by
      cases h : funcs.zip params with
      | nil => exact absurd h hz
      | cons a l => exact ⟨a, l, rfl⟩
    constructor <;>
      simp [extract_from_multiple_program, hz2, extractLoop_cons, envReset,
            envEnter, envExit]

/-- Claim C5 witness: the normal-exit conjunct at the empty batch (the
logger state is restored to its prior value, here false), and the
exceptional-exit conjunct at a one-program batch (the call raises and the
logger stays disabled). -/
theorem logger_restored_only_on_normal_exit_witness :
    (extract_from_multiple_program optimize0 codegen0 create0 [] []
        none tgt0 none st0).2.loggerDisabled = st0.loggerDisabled
    ∧ ((extract_from_multiple_program optimize0 codegen0 create0 [prog1]
        [param1] none tgt0 none st0).1 = .error (.nameError "mod")
      ∧ (extract_from_multiple_program optimize0 codegen0 create0 [prog1]
        [param1] none tgt0 none st0).2.loggerDisabled = true) :=
  ⟨(logger_restored_only_on_normal_exit optimize0 codegen0 create0 [] []
      none tgt0 none st0).1 (by decide),
   (logger_restored_only_on_normal_exit optimize0 codegen0 create0 [prog1]
      [param1] none tgt0 none st0).2 (by decide)⟩

/-- Claim C6 counterexample: with a FallbackContext current and a stale
fallback warning and memoized entry in its cache, a one-program batch
leaves both exactly as they were — the fallback-warning cache is not
cleared after the program's extraction pass. -/
theorem fallback_cache_not_reset_after_pass :
    (extract_from_multiple_program optimize0 codegen0 create0
        [prog0] [param0] none tgt0 none stFb).2.fallbackWarnings
      = ["used fallback schedule"]
    ∧ (extract_from_multiple_program optimize0 codegen0 create0
        [prog0] [param0] none tgt0 none stFb).2.fallbackMemory
      = [("wkl", 1)] := by
  exact ⟨rfl, rfl⟩

/-- Claim C6 (amended): the reset of the dispatch layer's fallback-warning
cache is guarded by the current dispatch context being a FallbackContext
and sits after the lowering step in the loop body, which raises NameError
for mod first — so the reset is unreachable: every call to the batch
entry point leaves the memoized fallback state and the accumulated
fallback warning messages exactly as they were. -/
theorem fallback_cache_never_modified
    (optimize : Prog → TargetV → ParamMap → Nat)
    (codegen : Nat → TargetV → Lowered)
    (create : String → List Nat → TargetV → Except PyErr TuneTask)
    (funcs : List Prog) (params : List ParamMap)
    (ops : Option (List String)) (target : TargetV)
    (target_host : Option TargetV) (s : PyState) :
    (extract_from_multiple_program optimize codegen create funcs params
        ops target target_host s).2.fallbackMemory = s.fallbackMemory
    ∧ (extract_from_multiple_program optimize codegen create funcs params
        ops target target_host s).2.fallbackWarnings = s.fallbackWarnings := by
  cases h : funcs.zip params with
  | nil =>
    constructor <;>
      simp [extract_from_multiple_program, h, extractLoop, envReset, envEnter,
            envExit, envGetTasks, materializeTasks]
  | cons fp rest =>
    obtain ⟨f, p⟩ := fp
    constructor <;>
      simp [extract_from_multiple_program, h, extractLoop_cons, envReset,
            envEnter, envExit]

/-- Claim C9 counterexample: a non-empty funcs sequence with an empty
params sequence makes zip(funcs, params) empty, so the loop body never
runs: no NameError is raised and an empty task list is returned — the
claim does not hold for every non-empty funcs sequence. -/
theorem nonempty_funcs_empty_params_returns_ok :
    (extract_from_multiple_program optimize0 codegen0 create0
        [prog0] [] none tgt0 none st0).1 = .ok [] := by
  rfl

/-- Claim C9 (amended): whenever funcs and params are both non-empty (so
zip(funcs, params) is non-empty), the batch call raises NameError for the
unbound name mod on the first loop iteration and returns no task list;
the final trace extends the initial one by exactly the single cache-clear
event, so no lowering thread was ever started. -/
theorem nonempty_zip_raises_mod_nameError
    (optimize : Prog → TargetV → ParamMap → Nat)
    (codegen : Nat → TargetV → Lowered)
    (create : String → List Nat → TargetV → Except PyErr TuneTask)
    (funcs : List Prog) (params : List ParamMap)
    (ops : Option (List String)) (target : TargetV)
    (target_host : Option TargetV) (s : PyState)
    (hf : funcs ≠ []) (hp : params ≠ []) :
    (extract_from_multiple_program optimize codegen create funcs params
        ops target target_host s).1 = .error (.nameError "mod")
    ∧ (extract_from_multiple_program optimize codegen create funcs params
        ops target target_host s).2.trace
      = s.trace ++ [Ev.clearTECache] := by
  obtain ⟨f, fs, rfl⟩ := List.exists_cons_of_ne_nil hf
  obtain ⟨p, ps, rfl⟩ := List.exists_cons_of_ne_nil hp
  constructor <;>
    simp [extract_from_multiple_program, List.zip_cons_cons, extractLoop_cons,
          envReset, envEnter, envExit]

/-- Claim C9 witness: the amended claim at a concrete one-program,
one-param batch. -/
theorem nonempty_zip_raises_mod_nameError_witness :
    (extract_from_multiple_program optimize0 codegen0 create0 [prog1]
        [param0] none tgt0 none st0).1 = .error (.nameError "mod")
    ∧ (extract_from_multiple_program optimize0 codegen0 create0 [prog1]
        [param0] none tgt0 none st0).2.trace
      = st0.trace ++ [Ev.clearTECache] :=
  nonempty_zip_raises_mod_nameError optimize0 codegen0 create0 [prog1]
    [param0] none tgt0 none st0 (by decide) (by decide)

/-- Claim C4: the materialization loop, run over the recorded invocations
in first-seen order with an arbitrary construction oracle: when no record
triggers a construction error other than InvalidShapeError, the loop
raises nothing, returns exactly the tasks that constructed successfully
in record order (records rejected with InvalidShapeError are skipped, one
warning each, and all remaining records are still processed); when some
record triggers any other construction error, the first such error is the
loop's result and propagates (the materialization result is the tail of
extract_from_multiple_program, so its error is the batch error). -/
theorem materializeTasks_skips_invalid_and_propagates_fatal
    (create : String → List Nat → TargetV → Except PyErr TuneTask)
    (target : TargetV) (records : List TaskRecord) :
    (firstFatal create target records = none →
      materializeTasks create target records
        = (Except.ok (okTasks create target records),
           shapeWarnings create target records))
    ∧ ∀ e, firstFatal create target records = some e →
      (materializeTasks create target records).1 = Except.error e := by
  induction records with
  | nil =>
    refine ⟨fun _ => rfl, fun e h => ?_⟩
    simp [firstFatal] at h
  | cons r rs ih =>
    cases hc : create r.taskName r.args target with
    | ok tsk =>
      have hfat : fatalOf create target r = none := by
        simp [fatalOf, hc]
      have hff : firstFatal create target (r :: rs)
          = firstFatal create target rs := by
        simp [firstFatal, List.findSome?_cons, hfat]
      have hok : okTasks create target (r :: rs)
          = tsk :: okTasks create target rs := by
        simp [okTasks, List.filterMap_cons, hc, Except.toOption]
      have hsw : shapeWarnings create target (r :: rs)
          = shapeWarnings create target rs := by
        simp [shapeWarnings, List.filterMap_cons, hc]
      constructor
      · intro h
        rw [hff] at h
        rw [hok, hsw]
        simp [materializeTasks, hc, ih.1 h]
      · intro e h
        rw [hff] at h
        have h1 := ih.2 e h
        rcases hm : materializeTasks create target rs with ⟨res, ws⟩
        rw [hm] at h1
        simp only at h1
        subst h1
        simp [materializeTasks, hc, hm]
    | error e0 =>
      by_cases he : e0 = PyErr.invalidShapeError
      · subst he
        have hfat : fatalOf create target r = none := by
          simp [fatalOf, hc]
        have hff : firstFatal create target (r :: rs)
            = firstFatal create target rs := by
          simp [firstFatal, List.findSome?_cons, hfat]
        have hok : okTasks create target (r :: rs)
            = okTasks create target rs := by
          simp [okTasks, List.filterMap_cons, hc, Except.toOption]
        have hsw : shapeWarnings create target (r :: rs)
            = taskWarnMsg :: shapeWarnings create target rs := by
          simp [shapeWarnings, List.filterMap_cons, hc]
        constructor
        · intro h
          rw [hff] at h
          rw [hok, hsw]
          simp [materializeTasks, hc, ih.1 h]
        · intro e h
          rw [hff] at h
          simp [materializeTasks, hc, ih.2 e h]
      · have hfat : fatalOf create target r = some e0 :=
          fatalOf_fatal create target r e0 hc he
        have hff : firstFatal create target (r :: rs) = some e0 := by
          simp [firstFatal, List.findSome?_cons, hfat]
        have hmat : materializeTasks create target (r :: rs)
            = (.error e0, []) :=
          materializeTasks_fatal_head create target r rs e0 hc he
        constructor
        · intro h
          rw [hff] at h
          cases h
        · intro e h
          rw [hff] at h
          injection h with h
          subst h
          rw [hmat]

/-- Claim C4 witness: the theorem applied at a concrete oracle and
concrete record lists — one batch where the middle record is rejected
with InvalidShapeError (it is skipped, the two accepted tasks are both
returned, one warning), and one batch where a record fails with a
different error (that error is the result). -/
theorem materializeTasks_skips_invalid_and_propagates_fatal_witness :
    materializeTasks createW tgt0 [recA, recB, recC]
      = (Except.ok (okTasks createW tgt0 [recA, recB, recC]),
         shapeWarnings createW tgt0 [recA, recB, recC])
    ∧ (materializeTasks createW tgt0 [recA, recF, recC]).1
      = Except.error (PyErr.otherError "boom") :=
  ⟨(materializeTasks_skips_invalid_and_propagates_fatal createW tgt0
      [recA, recB, recC]).1 (by decide),
   (materializeTasks_skips_invalid_and_propagates_fatal createW tgt0
      [recA, recF, recC]).2 (PyErr.otherError "boom") (by decide)⟩
